import Mathlib

/-!
Verification of the convtools C extension `getters.c`: four fail-safe
chained accessors (`get_item_deep_default_simple`,
`get_item_deep_default_callable`, `get_attr_deep_default_simple`,
`get_attr_deep_default_callable`).

Embedding notes.  Python objects are modelled by an abstract type `V`;
the identity test `item == Py_None` is modelled by a predicate
`isNone : V → Bool` (pointer identity with the `None` singleton).  The
external step operations `PyObject_GetItem` / `PyObject_GetAttr` are
oracles of type `V → V → Except Exc V`: they either produce the next
object or raise an exception of kind `Exc`.  `Exc` records the
exception classes the C code discriminates on with
`PyErr_ExceptionMatches` (KeyError, IndexError, TypeError,
AttributeError, the ValueError raised for bad arity) plus an opaque
`other` family for every unrelated exception.  The fallback factory
(`PyObject_CallNoArgs(args[default_index])`) is an oracle
`factory : Nat → Except Exc V` indexed by a global invocation counter,
so that distinct invocations can be observed to produce distinct
results (no caching).

Each call returns a `CallResult`: the value or propagated exception,
the 1-based positions of the chain at which the step operation was
actually invoked (in invocation order), and how many times the factory
was invoked during the call.  These extra fields record the externally
observable calls the C code makes; the C functions themselves return
only the value / raised exception.
-/

/-- Exception kinds distinguished by the C code.  `other n` stands for
any exception matching none of the named classes. -/
inductive Exc where
  | valueError
  | keyError
  | indexError
  | typeError
  | attributeError
  | other (code : Nat)
deriving DecidableEq, Repr

/-- Observable outcome of one accessor call: the returned value or the
exception that propagated, the 1-based chain positions at which the
step operation was invoked (in order), and the number of factory
invocations made during the call. -/
structure CallResult (V : Type) where
  result : Except Exc V
  steps : List Nat
  factoryCalls : Nat
deriving Repr

/-- The exception filter of the item variants:
`PyErr_ExceptionMatches(PyExc_KeyError) ||
 PyErr_ExceptionMatches(PyExc_IndexError) ||
 PyErr_ExceptionMatches(PyExc_TypeError)`. -/
def itemExcClassified : Exc → Bool
  | .keyError => true
  | .indexError => true
  | .typeError => true
  | _ => false

/-- The exception filter of the attr variants:
`PyErr_ExceptionMatches(PyExc_AttributeError)`. -/
def attrExcClassified : Exc → Bool
  | .attributeError => true
  | _ => false

/-- The shared loop `for (i = 1; i < default_index; i++)` of the two
`*_simple` functions, parameterized by the step operation (`step`), the
`Py_None` identity test (`isNone`), the exception filter (`cls`) and the
static default `args[default_index]` (`dflt`).  `pos` is the 1-based
position in the chain of the next key.  On short-circuit the static
default is returned (`Py_INCREF(args[default_index]); return ...`). -/
def goDeepSimple {V : Type} (step : V → V → Except Exc V) (isNone : V → Bool)
    (cls : Exc → Bool) (dflt : V) : V → List V → Nat → CallResult V
  | item, [], _ => ⟨.ok item, [], 0⟩
  | item, key :: keys, pos =>
    if isNone item then ⟨.ok dflt, [], 0⟩
    else
      match step item key with
      | .ok a =>
        let r := goDeepSimple step isNone cls dflt a keys (pos + 1)
        ⟨r.result, pos :: r.steps, r.factoryCalls⟩
      | .error e =>
        if cls e then ⟨.ok dflt, [pos], 0⟩ else ⟨.error e, [pos], 0⟩

/-- The shared loop of the two `*_callable` functions.  On
short-circuit the fallback factory is invoked once
(`a = PyObject_CallNoArgs(args[default_index]); if (a == NULL) return
NULL; return a;`): the call's outcome is `factory fc` verbatim, where
`fc` is the global factory-invocation counter at entry. -/
def goDeepCallable {V : Type} (step : V → V → Except Exc V) (isNone : V → Bool)
    (cls : Exc → Bool) (factory : Nat → Except Exc V) (fc : Nat) :
    V → List V → Nat → CallResult V
  | item, [], _ => ⟨.ok item, [], 0⟩
  | item, key :: keys, pos =>
    if isNone item then ⟨factory fc, [], 1⟩
    else
      match step item key with
      | .ok a =>
        let r := goDeepCallable step isNone cls factory fc a keys (pos + 1)
        ⟨r.result, pos :: r.steps, r.factoryCalls⟩
      | .error e =>
        if cls e then ⟨factory fc, [pos], 1⟩ else ⟨.error e, [pos], 0⟩

/-- `get_item_deep_default_simple(self, args, nargs)`: if `nargs < 3`
raise ValueError; else walk `args[1 .. nargs-2]` from root `args[0]`
with `PyObject_GetItem`, catching KeyError/IndexError/TypeError into
the static default `args[nargs-1]`. -/
def get_item_deep_default_simple {V : Type} (getItem : V → V → Except Exc V)
    (isNone : V → Bool) (args : List V) : CallResult V :=
  match args with
  | root :: k1 :: k2 :: rest =>
    goDeepSimple getItem isNone itemExcClassified
      ((k1 :: k2 :: rest).getLast (List.cons_ne_nil _ _))
      root (k1 :: k2 :: rest).dropLast 1
  | _ => ⟨.error .valueError, [], 0⟩

/-- `get_item_deep_default_callable(self, args, nargs)`: as the simple
item variant, but on short-circuit `args[nargs-1]` is invoked with no
arguments; a failure of that invocation propagates. -/
def get_item_deep_default_callable {V : Type} (getItem : V → V → Except Exc V)
    (isNone : V → Bool) (factory : Nat → Except Exc V) (fc : Nat)
    (args : List V) : CallResult V :=
  match args with
  | root :: k1 :: k2 :: rest =>
    goDeepCallable getItem isNone itemExcClassified factory fc
      root (k1 :: k2 :: rest).dropLast 1
  | _ => ⟨.error .valueError, [], 0⟩

/-- `get_attr_deep_default_simple(self, args, nargs)`: walk with
`PyObject_GetAttr`, catching only AttributeError into the static
default. -/
def get_attr_deep_default_simple {V : Type} (getAttr : V → V → Except Exc V)
    (isNone : V → Bool) (args : List V) : CallResult V :=
  match args with
  | root :: k1 :: k2 :: rest =>
    goDeepSimple getAttr isNone attrExcClassified
      ((k1 :: k2 :: rest).getLast (List.cons_ne_nil _ _))
      root (k1 :: k2 :: rest).dropLast 1
  | _ => ⟨.error .valueError, [], 0⟩

/-- `get_attr_deep_default_callable(self, args, nargs)`: walk with
`PyObject_GetAttr`, catching only AttributeError, invoking the factory
`args[nargs-1]` on short-circuit. -/
def get_attr_deep_default_callable {V : Type} (getAttr : V → V → Except Exc V)
    (isNone : V → Bool) (factory : Nat → Except Exc V) (fc : Nat)
    (args : List V) : CallResult V :=
  match args with
  | root :: k1 :: k2 :: rest =>
    goDeepCallable getAttr isNone attrExcClassified factory fc
      root (k1 :: k2 :: rest).dropLast 1
  | _ => ⟨.error .valueError, [], 0⟩

/-- Spec-side reference walk ("applying each step operation in order,
manually, n times"): each step must succeed and the current value must
not be the null sentinel before any step; returns the final value. -/
def fullOk {V : Type} (step : V → V → Except Exc V) (isNone : V → Bool) :
    V → List V → Option V
  | v, [] => some v
  | v, key :: keys =>
    if isNone v then none
    else
      match step v key with
      | .ok a => fullOk step isNone a keys
      | .error _ => none

/-- `stepPositions start cnt` = `[start, start+1, ..., start+cnt-1]`:
the chain positions of `cnt` consecutive step invocations beginning at
position `start`. -/
def stepPositions : Nat → Nat → List Nat
  | _, 0 => []
  | start, cnt + 1 => start :: stepPositions (start + 1) cnt

/-- Concrete step oracle for instantiating the theorems: keys 100-103
raise the indicated exception kinds, key 104 produces the sentinel
value 0, any other key adds itself to the current value. -/
def stepW : Nat → Nat → Except Exc Nat := fun v k =>
  if k = 100 then .error (.other 5)
  else if k = 101 then .error .keyError
  else if k = 102 then .error .attributeError
  else if k = 103 then .error .typeError
  else if k = 104 then .ok 0
  else .ok (v + k)

/-- Concrete null-sentinel test: 0 plays the role of `None`. -/
def noneW : Nat → Bool := fun v => v == 0

/-- Concrete factory oracle: invocation number `i` returns `1000 + i`
(a fresh value per invocation, as a Python factory producing a new
object would). -/
def factW : Nat → Except Exc Nat := fun i => .ok (1000 + i)

/-- Concrete factory oracle that fails on every invocation. -/
def factFailW : Nat → Except Exc Nat := fun i => .error (.other (7 + i))

/-- Membership in `stepPositions`: exactly the positions in
`[start, start+cnt)`. -/
theorem mem_stepPositions {p s c : Nat} :
    p ∈ stepPositions s c ↔ s ≤ p ∧ p < s + c := by
  induction c generalizing s with
  | zero => simp only [stepPositions, List.not_mem_nil, false_iff]; omega
  | succ m ih =>
    simp only [stepPositions, List.mem_cons, ih]
    omega

/-- Dropping the last element of `l ++ [a]` gives back `l`. -/
theorem dropLast_app_single {V : Type} (a : V) (l : List V) :
    (l ++ [a]).dropLast = l := by
  simp

/-- Reduction of the simple item entry point on a well-formed argument
list `root :: keys ++ [dflt]` with at least one key. -/
theorem gidds_as_go {V : Type} (g : V → V → Except Exc V) (n : V → Bool)
    (root k1 dflt : V) (ks : List V) :
    get_item_deep_default_simple g n (root :: k1 :: (ks ++ [dflt])) =
      goDeepSimple g n itemExcClassified dflt root (k1 :: ks) 1 := by
  cases ks with
  | nil => rfl
  | cons k2 ks' =>
    show goDeepSimple g n itemExcClassified
        (((k1 :: k2 :: ks') ++ [dflt]).getLast (List.cons_ne_nil _ _)) root
        (((k1 :: k2 :: ks') ++ [dflt]).dropLast) 1 = _
    have h1 : ((k1 :: k2 :: ks') ++ [dflt]).getLast (List.cons_ne_nil _ _) = dflt := by
      simp [List.getLast_append]
    rw [h1, dropLast_app_single dflt (k1 :: k2 :: ks')]

/-- Reduction of the simple attr entry point on a well-formed argument
list. -/
theorem gadds_as_go {V : Type} (g : V → V → Except Exc V) (n : V → Bool)
    (root k1 dflt : V) (ks : List V) :
    get_attr_deep_default_simple g n (root :: k1 :: (ks ++ [dflt])) =
      goDeepSimple g n attrExcClassified dflt root (k1 :: ks) 1 := by
  cases ks with
  | nil => rfl
  | cons k2 ks' =>
    show goDeepSimple g n attrExcClassified
        (((k1 :: k2 :: ks') ++ [dflt]).getLast (List.cons_ne_nil _ _)) root
        (((k1 :: k2 :: ks') ++ [dflt]).dropLast) 1 = _
    have h1 : ((k1 :: k2 :: ks') ++ [dflt]).getLast (List.cons_ne_nil _ _) = dflt := by
      simp [List.getLast_append]
    rw [h1, dropLast_app_single dflt (k1 :: k2 :: ks')]

/-- Reduction of the callable item entry point on a well-formed
argument list (the trailing argument is the callable object, invoked
through `factory`). -/
theorem giddc_as_go {V : Type} (g : V → V → Except Exc V) (n : V → Bool)
    (f : Nat → Except Exc V) (fc : Nat) (root k1 dflt : V) (ks : List V) :
    get_item_deep_default_callable g n f fc (root :: k1 :: (ks ++ [dflt])) =
      goDeepCallable g n itemExcClassified f fc root (k1 :: ks) 1 := by
  cases ks with
  | nil => rfl
  | cons k2 ks' =>
    show goDeepCallable g n itemExcClassified f fc root
        (((k1 :: k2 :: ks') ++ [dflt]).dropLast) 1 = _
    rw [dropLast_app_single dflt (k1 :: k2 :: ks')]

/-- Reduction of the callable attr entry point on a well-formed
argument list. -/
theorem gaddc_as_go {V : Type} (g : V → V → Except Exc V) (n : V → Bool)
    (f : Nat → Except Exc V) (fc : Nat) (root k1 dflt : V) (ks : List V) :
    get_attr_deep_default_callable g n f fc (root :: k1 :: (ks ++ [dflt])) =
      goDeepCallable g n attrExcClassified f fc root (k1 :: ks) 1 := by
  cases ks with
  | nil => rfl
  | cons k2 ks' =>
    show goDeepCallable g n attrExcClassified f fc root
        (((k1 :: k2 :: ks') ++ [dflt]).dropLast) 1 = _
    rw [dropLast_app_single dflt (k1 :: k2 :: ks')]

/-- If the reference walk fully succeeds with value `v`, the simple
walker invokes every step in order and returns `v`; no fallback is
used. -/
theorem goDeepSimple_fullOk {V : Type} (g : V → V → Except Exc V) (n : V → Bool)
    (cls : Exc → Bool) (dflt : V) :
    ∀ (keys : List V) (item v : V) (pos : Nat), fullOk g n item keys = some v →
      goDeepSimple g n cls dflt item keys pos =
        ⟨.ok v, stepPositions pos keys.length, 0⟩ := by
  intro keys
  induction keys with
  | nil =>
    intro item v pos h
    simp only [fullOk, Option.some.injEq] at h
    subst h
    rfl
  | cons k ks ih =>
    intro item v pos h
    simp only [fullOk] at h
    cases hn : n item with
    | true => simp [hn] at h
    | false =>
      simp only [hn, Bool.false_eq_true, if_false] at h
      cases hg : g item k with
      | ok a =>
        simp only [hg] at h
        simp only [goDeepSimple, hn, Bool.false_eq_true, if_false, hg,
          ih a v (pos + 1) h, List.length_cons, stepPositions]
      | error e => simp [hg] at h

/-- If the reference walk fully succeeds on the prefix `pre` with a
value `v` that is the null sentinel, and at least one key remains, the
simple walker invokes exactly the steps of `pre` and returns the
static default. -/
theorem goDeepSimple_sentinel {V : Type} (g : V → V → Except Exc V) (n : V → Bool)
    (cls : Exc → Bool) (dflt : V) :
    ∀ (pre : List V) (item v : V) (kk : V) (post : List V) (pos : Nat),
      fullOk g n item pre = some v → n v = true →
      goDeepSimple g n cls dflt item (pre ++ kk :: post) pos =
        ⟨.ok dflt, stepPositions pos pre.length, 0⟩ := by
  intro pre
  induction pre with
  | nil =>
    intro item v kk post pos h hv
    simp only [fullOk, Option.some.injEq] at h
    subst h
    simp [goDeepSimple, hv, stepPositions]
  | cons k ks ih =>
    intro item v kk post pos h hv
    simp only [fullOk] at h
    cases hn : n item with
    | true => simp [hn] at h
    | false =>
      simp only [hn, Bool.false_eq_true, if_false] at h
      cases hg : g item k with
      | ok a =>
        simp only [hg] at h
        simp only [List.cons_append, goDeepSimple, hn, Bool.false_eq_true, if_false, hg,
          List.append_eq, ih a v kk post (pos + 1) h hv, List.length_cons, stepPositions]
      | error e => simp [hg] at h

/-- If the reference walk fully succeeds on the prefix `pre` with a
non-sentinel value `v`, and the step operation fails on `v` at the
next key `kk`, the simple walker invokes exactly the steps of `pre`
and the failing one, returning the static default when the exception
is classified and propagating it otherwise. -/
theorem goDeepSimple_err {V : Type} (g : V → V → Except Exc V) (n : V → Bool)
    (cls : Exc → Bool) (dflt : V) (e : Exc) :
    ∀ (pre : List V) (item v : V) (kk : V) (post : List V) (pos : Nat),
      fullOk g n item pre = some v → n v = false → g v kk = .error e →
      goDeepSimple g n cls dflt item (pre ++ kk :: post) pos =
        ⟨if cls e then .ok dflt else .error e,
          stepPositions pos (pre.length + 1), 0⟩ := by
  intro pre
  induction pre with
  | nil =>
    intro item v kk post pos h hv he
    simp only [fullOk, Option.some.injEq] at h
    subst h
    simp only [List.nil_append, goDeepSimple, hv, Bool.false_eq_true, if_false, he,
      List.length_nil, stepPositions]
    cases cls e <;> simp
  | cons k ks ih =>
    intro item v kk post pos h hv he
    simp only [fullOk] at h
    cases hn : n item with
    | true => simp [hn] at h
    | false =>
      simp only [hn, Bool.false_eq_true, if_false] at h
      cases hg : g item k with
      | ok a =>
        simp only [hg] at h
        simp only [List.cons_append, goDeepSimple, hn, Bool.false_eq_true, if_false, hg,
          List.append_eq, ih a v kk post (pos + 1) h hv he, List.length_cons, stepPositions]
      | error e' => simp [hg] at h

/-- If the reference walk fully succeeds with value `v`, the callable
walker invokes every step in order, returns `v`, and never invokes the
factory. -/
theorem goDeepCallable_fullOk {V : Type} (g : V → V → Except Exc V) (n : V → Bool)
    (cls : Exc → Bool) (f : Nat → Except Exc V) (fc : Nat) :
    ∀ (keys : List V) (item v : V) (pos : Nat), fullOk g n item keys = some v →
      goDeepCallable g n cls f fc item keys pos =
        ⟨.ok v, stepPositions pos keys.length, 0⟩ := by
  intro keys
  induction keys with
  | nil =>
    intro item v pos h
    simp only [fullOk, Option.some.injEq] at h
    subst h
    rfl
  | cons k ks ih =>
    intro item v pos h
    simp only [fullOk] at h
    cases hn : n item with
    | true => simp [hn] at h
    | false =>
      simp only [hn, Bool.false_eq_true, if_false] at h
      cases hg : g item k with
      | ok a =>
        simp only [hg] at h
        simp only [goDeepCallable, hn, Bool.false_eq_true, if_false, hg,
          ih a v (pos + 1) h, List.length_cons, stepPositions]
      | error e => simp [hg] at h

/-- If the reference walk fully succeeds on the prefix `pre` with a
value `v` that is the null sentinel, and at least one key remains, the
callable walker invokes exactly the steps of `pre`, invokes the
factory once, and returns (or propagates) whatever the factory
produced. -/
theorem goDeepCallable_sentinel {V : Type} (g : V → V → Except Exc V) (n : V → Bool)
    (cls : Exc → Bool) (f : Nat → Except Exc V) (fc : Nat) :
    ∀ (pre : List V) (item v : V) (kk : V) (post : List V) (pos : Nat),
      fullOk g n item pre = some v → n v = true →
      goDeepCallable g n cls f fc item (pre ++ kk :: post) pos =
        ⟨f fc, stepPositions pos pre.length, 1⟩ := by
  intro pre
  induction pre with
  | nil =>
    intro item v kk post pos h hv
    simp only [fullOk, Option.some.injEq] at h
    subst h
    simp [goDeepCallable, hv, stepPositions]
  | cons k ks ih =>
    intro item v kk post pos h hv
    simp only [fullOk] at h
    cases hn : n item with
    | true => simp [hn] at h
    | false =>
      simp only [hn, Bool.false_eq_true, if_false] at h
      cases hg : g item k with
      | ok a =>
        simp only [hg] at h
        simp only [List.cons_append, goDeepCallable, hn, Bool.false_eq_true, if_false, hg,
          List.append_eq, ih a v kk post (pos + 1) h hv, List.length_cons, stepPositions]
      | error e => simp [hg] at h

/-- If the reference walk fully succeeds on the prefix `pre` with a
non-sentinel value `v`, and the step operation fails on `v` at the
next key `kk`, the callable walker invokes exactly the steps of `pre`
and the failing one; on a classified exception it invokes the factory
once and returns its outcome, otherwise it propagates the exception
with no factory invocation. -/
theorem goDeepCallable_err {V : Type} (g : V → V → Except Exc V) (n : V → Bool)
    (cls : Exc → Bool) (f : Nat → Except Exc V) (fc : Nat) (e : Exc) :
    ∀ (pre : List V) (item v : V) (kk : V) (post : List V) (pos : Nat),
      fullOk g n item pre = some v → n v = false → g v kk = .error e →
      goDeepCallable g n cls f fc item (pre ++ kk :: post) pos =
        if cls e then ⟨f fc, stepPositions pos (pre.length + 1), 1⟩
        else ⟨.error e, stepPositions pos (pre.length + 1), 0⟩ := by
  intro pre
  induction pre with
  | nil =>
    intro item v kk post pos h hv he
    simp only [fullOk, Option.some.injEq] at h
    subst h
    simp only [List.nil_append, goDeepCallable, hv, Bool.false_eq_true, if_false, he,
      List.length_nil, stepPositions]
  | cons k ks ih =>
    intro item v kk post pos h hv he
    simp only [fullOk] at h
    cases hn : n item with
    | true => simp [hn] at h
    | false =>
      simp only [hn, Bool.false_eq_true, if_false] at h
      cases hg : g item k with
      | ok a =>
        simp only [hg] at h
        simp only [List.cons_append, goDeepCallable, hn, Bool.false_eq_true, if_false, hg,
          List.append_eq, ih a v kk post (pos + 1) h hv he, List.length_cons, stepPositions]
        cases cls e <;> simp
      | error e' => simp [hg] at h

/-- Simple item entry point on `root :: keys ++ [dflt]`, any non-empty
chain. -/
theorem gidds_args {V : Type} (g : V → V → Except Exc V) (n : V → Bool)
    (root dflt : V) (keys : List V) (hk : keys ≠ []) :
    get_item_deep_default_simple g n (root :: (keys ++ [dflt])) =
      goDeepSimple g n itemExcClassified dflt root keys 1 := by
  cases keys with
  | nil => exact absurd rfl hk
  | cons k1 ks => exact gidds_as_go g n root k1 dflt ks

/-- Simple attr entry point on `root :: keys ++ [dflt]`, any non-empty
chain. -/
theorem gadds_args {V : Type} (g : V → V → Except Exc V) (n : V → Bool)
    (root dflt : V) (keys : List V) (hk : keys ≠ []) :
    get_attr_deep_default_simple g n (root :: (keys ++ [dflt])) =
      goDeepSimple g n attrExcClassified dflt root keys 1 := by
  cases keys with
  | nil => exact absurd rfl hk
  | cons k1 ks => exact gadds_as_go g n root k1 dflt ks

/-- Callable item entry point on `root :: keys ++ [dflt]`, any
non-empty chain. -/
theorem giddc_args {V : Type} (g : V → V → Except Exc V) (n : V → Bool)
    (f : Nat → Except Exc V) (fc : Nat) (root dflt : V) (keys : List V)
    (hk : keys ≠ []) :
    get_item_deep_default_callable g n f fc (root :: (keys ++ [dflt])) =
      goDeepCallable g n itemExcClassified f fc root keys 1 := by
  cases keys with
  | nil => exact absurd rfl hk
  | cons k1 ks => exact giddc_as_go g n f fc root k1 dflt ks

/-- Callable attr entry point on `root :: keys ++ [dflt]`, any
non-empty chain. -/
theorem gaddc_args {V : Type} (g : V → V → Except Exc V) (n : V → Bool)
    (f : Nat → Except Exc V) (fc : Nat) (root dflt : V) (keys : List V)
    (hk : keys ≠ []) :
    get_attr_deep_default_callable g n f fc (root :: (keys ++ [dflt])) =
      goDeepCallable g n attrExcClassified f fc root keys 1 := by
  cases keys with
  | nil => exact absurd rfl hk
  | cons k1 ks => exact gaddc_as_go g n f fc root k1 dflt ks

/-- Claim C2: for every root value and every non-empty step sequence on
which each step operation succeeds and no intermediate current value is
the null sentinel, every variant returns exactly the value obtained by
applying the step operation to the root once per key, strictly left to
right (the step operation is invoked exactly at positions 1..n, in
order), and the factory variants never invoke the factory. -/
theorem C2_full_success {V : Type} (gItem gAttr : V → V → Except Exc V)
    (n : V → Bool) (f : Nat → Except Exc V) (fc : Nat) (root dflt v vA : V)
    (keys : List V) (hk : keys ≠ [])
    (hi : fullOk gItem n root keys = some v)
    (ha : fullOk gAttr n root keys = some vA) :
    get_item_deep_default_simple gItem n (root :: (keys ++ [dflt])) =
      ⟨.ok v, stepPositions 1 keys.length, 0⟩ ∧
    get_item_deep_default_callable gItem n f fc (root :: (keys ++ [dflt])) =
      ⟨.ok v, stepPositions 1 keys.length, 0⟩ ∧
    get_attr_deep_default_simple gAttr n (root :: (keys ++ [dflt])) =
      ⟨.ok vA, stepPositions 1 keys.length, 0⟩ ∧
    get_attr_deep_default_callable gAttr n f fc (root :: (keys ++ [dflt])) =
      ⟨.ok vA, stepPositions 1 keys.length, 0⟩ := by
  refine ⟨?_, ?_, ?_, ?_⟩
  · rw [gidds_args gItem n root dflt keys hk]
    exact goDeepSimple_fullOk gItem n itemExcClassified dflt keys root v 1 hi
  · rw [giddc_args gItem n f fc root dflt keys hk]
    exact goDeepCallable_fullOk gItem n itemExcClassified f fc keys root v 1 hi
  · rw [gadds_args gAttr n root dflt keys hk]
    exact goDeepSimple_fullOk gAttr n attrExcClassified dflt keys root vA 1 ha
  · rw [gaddc_args gAttr n f fc root dflt keys hk]
    exact goDeepCallable_fullOk gAttr n attrExcClassified f fc keys root vA 1 ha

/-- Witness for C2: root 10, chain `[1, 2]`, static default 99; both
oracles are `stepW`, so the manual walk gives 10 + 1 + 2 = 13. -/
theorem C2_witness :
    ([1, 2] : List Nat) ≠ [] ∧
    fullOk stepW noneW 10 [1, 2] = some 13 ∧
    (get_item_deep_default_simple stepW noneW (10 :: ([1, 2] ++ [99])) =
        ⟨.ok 13, stepPositions 1 2, 0⟩ ∧
      get_item_deep_default_callable stepW noneW factW 0 (10 :: ([1, 2] ++ [99])) =
        ⟨.ok 13, stepPositions 1 2, 0⟩ ∧
      get_attr_deep_default_simple stepW noneW (10 :: ([1, 2] ++ [99])) =
        ⟨.ok 13, stepPositions 1 2, 0⟩ ∧
      get_attr_deep_default_callable stepW noneW factW 0 (10 :: ([1, 2] ++ [99])) =
        ⟨.ok 13, stepPositions 1 2, 0⟩) :=
  ⟨by decide, by decide,
    C2_full_success stepW stepW noneW factW 0 10 99 13 13 [1, 2]
      (by decide) (by decide) (by decide)⟩

/-- Claim C3: if the current value equals the null sentinel immediately
before step `k = pre.length + 1` (including `k = 1`, root itself the
sentinel, and `k = n`, the last position), every variant returns the
fallback (static default, resp. the factory's outcome with exactly one
factory invocation) and the step operation is invoked exactly at
positions 1..k-1 — no position ≥ k. -/
theorem C3_sentinel_short_circuit {V : Type} (gItem gAttr : V → V → Except Exc V)
    (n : V → Bool) (f : Nat → Except Exc V) (fc : Nat) (root dflt v vA : V)
    (pre : List V) (kk : V) (post : List V)
    (hi : fullOk gItem n root pre = some v) (hv : n v = true)
    (ha : fullOk gAttr n root pre = some vA) (hvA : n vA = true) :
    get_item_deep_default_simple gItem n (root :: ((pre ++ kk :: post) ++ [dflt])) =
      ⟨.ok dflt, stepPositions 1 pre.length, 0⟩ ∧
    get_item_deep_default_callable gItem n f fc (root :: ((pre ++ kk :: post) ++ [dflt])) =
      ⟨f fc, stepPositions 1 pre.length, 1⟩ ∧
    get_attr_deep_default_simple gAttr n (root :: ((pre ++ kk :: post) ++ [dflt])) =
      ⟨.ok dflt, stepPositions 1 pre.length, 0⟩ ∧
    get_attr_deep_default_callable gAttr n f fc (root :: ((pre ++ kk :: post) ++ [dflt])) =
      ⟨f fc, stepPositions 1 pre.length, 1⟩ ∧
    (∀ p ∈ stepPositions 1 pre.length, p < pre.length + 1) := by
  have hne : pre ++ kk :: post ≠ [] :=
    List.append_ne_nil_of_right_ne_nil pre (List.cons_ne_nil kk post)
  refine ⟨?_, ?_, ?_, ?_, ?_⟩
  · rw [gidds_args gItem n root dflt (pre ++ kk :: post) hne]
    exact goDeepSimple_sentinel gItem n itemExcClassified dflt pre root v kk post 1 hi hv
  · rw [giddc_args gItem n f fc root dflt (pre ++ kk :: post) hne]
    exact goDeepCallable_sentinel gItem n itemExcClassified f fc pre root v kk post 1 hi hv
  · rw [gadds_args gAttr n root dflt (pre ++ kk :: post) hne]
    exact goDeepSimple_sentinel gAttr n attrExcClassified dflt pre root vA kk post 1 ha hvA
  · rw [gaddc_args gAttr n f fc root dflt (pre ++ kk :: post) hne]
    exact goDeepCallable_sentinel gAttr n attrExcClassified f fc pre root vA kk post 1 ha hvA
  · intro p hp
    have := mem_stepPositions.mp hp
    omega

/-- Witness for C3: root 10, chain `[104, 1]`: key 104 yields the
sentinel 0 before step 2, so the static default 99 / the factory's
first outcome is returned and only position 1 is stepped. -/
theorem C3_witness :
    fullOk stepW noneW 10 [104] = some 0 ∧ noneW 0 = true ∧
    (get_item_deep_default_simple stepW noneW (10 :: (([104] ++ [1]) ++ [99])) =
        ⟨.ok 99, stepPositions 1 1, 0⟩ ∧
      get_item_deep_default_callable stepW noneW factW 0 (10 :: (([104] ++ [1]) ++ [99])) =
        ⟨factW 0, stepPositions 1 1, 1⟩ ∧
      get_attr_deep_default_simple stepW noneW (10 :: (([104] ++ [1]) ++ [99])) =
        ⟨.ok 99, stepPositions 1 1, 0⟩ ∧
      get_attr_deep_default_callable stepW noneW factW 0 (10 :: (([104] ++ [1]) ++ [99])) =
        ⟨factW 0, stepPositions 1 1, 1⟩ ∧
      (∀ p ∈ stepPositions 1 1, p < 2)) :=
  ⟨by decide, by decide,
    C3_sentinel_short_circuit stepW stepW noneW factW 0 10 99 0 0 [104] 1 []
      (by decide) (by decide) (by decide) (by decide)⟩

/-- Claim C10: the null-sentinel check applies only before a step is
attempted: if the final step itself successfully produces the null
sentinel, every variant returns the sentinel value itself, not the
fallback (and the factory variants never invoke the factory). -/
theorem C10_trailing_sentinel_returned {V : Type}
    (gItem gAttr : V → V → Except Exc V) (n : V → Bool)
    (f : Nat → Except Exc V) (fc : Nat) (root dflt v : V) (keys : List V)
    (hk : keys ≠ []) (hi : fullOk gItem n root keys = some v)
    (ha : fullOk gAttr n root keys = some v) (hv : n v = true) :
    get_item_deep_default_simple gItem n (root :: (keys ++ [dflt])) =
      ⟨.ok v, stepPositions 1 keys.length, 0⟩ ∧
    get_item_deep_default_callable gItem n f fc (root :: (keys ++ [dflt])) =
      ⟨.ok v, stepPositions 1 keys.length, 0⟩ ∧
    get_attr_deep_default_simple gAttr n (root :: (keys ++ [dflt])) =
      ⟨.ok v, stepPositions 1 keys.length, 0⟩ ∧
    get_attr_deep_default_callable gAttr n f fc (root :: (keys ++ [dflt])) =
      ⟨.ok v, stepPositions 1 keys.length, 0⟩ := by
  refine ⟨?_, ?_, ?_, ?_⟩
  · rw [gidds_args gItem n root dflt keys hk]
    exact goDeepSimple_fullOk gItem n itemExcClassified dflt keys root v 1 hi
  · rw [giddc_args gItem n f fc root dflt keys hk]
    exact goDeepCallable_fullOk gItem n itemExcClassified f fc keys root v 1 hi
  · rw [gadds_args gAttr n root dflt keys hk]
    exact goDeepSimple_fullOk gAttr n attrExcClassified dflt keys root v 1 ha
  · rw [gaddc_args gAttr n f fc root dflt keys hk]
    exact goDeepCallable_fullOk gAttr n attrExcClassified f fc keys root v 1 ha

/-- Witness for C10: root 10, single-key chain `[104]` whose step
succeeds and produces the sentinel 0 as the final value: the result is
`0` itself, not the default 99. -/
theorem C10_witness :
    ([104] : List Nat) ≠ [] ∧
    fullOk stepW noneW 10 [104] = some 0 ∧ noneW 0 = true ∧
    (get_item_deep_default_simple stepW noneW (10 :: ([104] ++ [99])) =
        ⟨.ok 0, stepPositions 1 1, 0⟩ ∧
      get_item_deep_default_callable stepW noneW factW 0 (10 :: ([104] ++ [99])) =
        ⟨.ok 0, stepPositions 1 1, 0⟩ ∧
      get_attr_deep_default_simple stepW noneW (10 :: ([104] ++ [99])) =
        ⟨.ok 0, stepPositions 1 1, 0⟩ ∧
      get_attr_deep_default_callable stepW noneW factW 0 (10 :: ([104] ++ [99])) =
        ⟨.ok 0, stepPositions 1 1, 0⟩) :=
  ⟨by decide, by decide, by decide,
    C10_trailing_sentinel_returned stepW stepW noneW factW 0 10 99 0 [104]
      (by decide) (by decide) (by decide) (by decide)⟩

/-- Claim C8: with fewer than 3 arguments, each of the four entry
points fails with the configuration error (ValueError), regardless of
argument content, with no step operation invoked and no factory
invocation. -/
theorem C8_arity_error {V : Type} (gItem gAttr : V → V → Except Exc V)
    (n : V → Bool) (f : Nat → Except Exc V) (fc : Nat) (args : List V)
    (h : args.length < 3) :
    get_item_deep_default_simple gItem n args = ⟨.error .valueError, [], 0⟩ ∧
    get_item_deep_default_callable gItem n f fc args = ⟨.error .valueError, [], 0⟩ ∧
    get_attr_deep_default_simple gAttr n args = ⟨.error .valueError, [], 0⟩ ∧
    get_attr_deep_default_callable gAttr n f fc args = ⟨.error .valueError, [], 0⟩ := by
  match args with
  | [] => exact ⟨rfl, rfl, rfl, rfl⟩
  | [a] => exact ⟨rfl, rfl, rfl, rfl⟩
  | [a, b] => exact ⟨rfl, rfl, rfl, rfl⟩
  | a :: b :: c :: rest =>
    exfalso
    simp only [List.length_cons] at h
    omega

/-- Witness for C8: the two-element argument list `[5, 6]`. -/
theorem C8_witness :
    ([5, 6] : List Nat).length < 3 ∧
    (get_item_deep_default_simple stepW noneW [5, 6] = ⟨.error .valueError, [], 0⟩ ∧
      get_item_deep_default_callable stepW noneW factW 0 [5, 6] =
        ⟨.error .valueError, [], 0⟩ ∧
      get_attr_deep_default_simple stepW noneW [5, 6] = ⟨.error .valueError, [], 0⟩ ∧
      get_attr_deep_default_callable stepW noneW factW 0 [5, 6] =
        ⟨.error .valueError, [], 0⟩) :=
  ⟨by decide, C8_arity_error stepW stepW noneW factW 0 [5, 6] (by decide)⟩

/-- Claim C1: if the step operation at position `k = pre.length + 1`
fails with an exception outside the item-classified set, both item
variants propagate that exception unchanged, invoke the step operation
only at positions 1..k, and never touch the fallback: no factory
invocation occurs, and the (arbitrary) static default is absent from
the outcome. -/
theorem C1_unclassified_propagates {V : Type} (g : V → V → Except Exc V)
    (n : V → Bool) (f : Nat → Except Exc V) (fc : Nat) (root dflt v kk : V)
    (pre post : List V) (e : Exc)
    (hp : fullOk g n root pre = some v) (hv : n v = false)
    (he : g v kk = .error e) (hcls : itemExcClassified e = false) :
    get_item_deep_default_simple g n (root :: ((pre ++ kk :: post) ++ [dflt])) =
      ⟨.error e, stepPositions 1 (pre.length + 1), 0⟩ ∧
    get_item_deep_default_callable g n f fc (root :: ((pre ++ kk :: post) ++ [dflt])) =
      ⟨.error e, stepPositions 1 (pre.length + 1), 0⟩ ∧
    (∀ p ∈ stepPositions 1 (pre.length + 1), p ≤ pre.length + 1) := by
  have hne : pre ++ kk :: post ≠ [] :=
    List.append_ne_nil_of_right_ne_nil pre (List.cons_ne_nil kk post)
  refine ⟨?_, ?_, ?_⟩
  · rw [gidds_args g n root dflt _ hne,
      goDeepSimple_err g n itemExcClassified dflt e pre root v kk post 1 hp hv he]
    simp [hcls]
  · rw [giddc_args g n f fc root dflt _ hne,
      goDeepCallable_err g n itemExcClassified f fc e pre root v kk post 1 hp hv he]
    simp [hcls]
  · intro p hp'
    have := mem_stepPositions.mp hp'
    omega

/-- Witness for C1: root 10, chain `[1, 100]`: step 1 gives 11, step 2
fails with the unclassified exception `other 5`, which propagates from
both item variants with no factory invocation. -/
theorem C1_witness :
    fullOk stepW noneW 10 [1] = some 11 ∧ noneW 11 = false ∧
    stepW 11 100 = .error (.other 5) ∧ itemExcClassified (.other 5) = false ∧
    (get_item_deep_default_simple stepW noneW (10 :: (([1] ++ 100 :: []) ++ [99])) =
        ⟨.error (.other 5), stepPositions 1 2, 0⟩ ∧
      get_item_deep_default_callable stepW noneW factW 0 (10 :: (([1] ++ 100 :: []) ++ [99])) =
        ⟨.error (.other 5), stepPositions 1 2, 0⟩ ∧
      (∀ p ∈ stepPositions 1 2, p ≤ 2)) :=
  ⟨by decide, by decide, rfl, by decide,
    C1_unclassified_propagates stepW noneW factW 0 10 99 11 100 [1] [] (.other 5)
      (by decide) (by decide) rfl (by decide)⟩

/-- Claim C4: for the item variants a step failure is a classified
miss exactly when the exception is KeyError (key not found),
IndexError (index out of bounds) or TypeError (wrong type for
indexing); such a miss at position `k = pre.length + 1` yields the
fallback with no step invoked beyond k (simple: the static default,
callable: one factory invocation), and any other failure propagates
instead. -/
theorem C4_item_classified_miss {V : Type} (g : V → V → Except Exc V)
    (n : V → Bool) (f : Nat → Except Exc V) (fc : Nat) (root dflt v kk : V)
    (pre post : List V) (e : Exc)
    (hp : fullOk g n root pre = some v) (hv : n v = false)
    (he : g v kk = .error e) :
    (∀ e' : Exc, itemExcClassified e' = true ↔
      (e' = .keyError ∨ e' = .indexError ∨ e' = .typeError)) ∧
    (itemExcClassified e = true →
      get_item_deep_default_simple g n (root :: ((pre ++ kk :: post) ++ [dflt])) =
        ⟨.ok dflt, stepPositions 1 (pre.length + 1), 0⟩ ∧
      get_item_deep_default_callable g n f fc (root :: ((pre ++ kk :: post) ++ [dflt])) =
        ⟨f fc, stepPositions 1 (pre.length + 1), 1⟩) ∧
    (itemExcClassified e = false →
      get_item_deep_default_simple g n (root :: ((pre ++ kk :: post) ++ [dflt])) =
        ⟨.error e, stepPositions 1 (pre.length + 1), 0⟩ ∧
      get_item_deep_default_callable g n f fc (root :: ((pre ++ kk :: post) ++ [dflt])) =
        ⟨.error e, stepPositions 1 (pre.length + 1), 0⟩) := by
  have hne : pre ++ kk :: post ≠ [] :=
    List.append_ne_nil_of_right_ne_nil pre (List.cons_ne_nil kk post)
  refine ⟨?_, ?_, ?_⟩
  · intro e'
    cases e' <;> simp [itemExcClassified]
  · intro hc
    constructor
    · rw [gidds_args g n root dflt _ hne,
        goDeepSimple_err g n itemExcClassified dflt e pre root v kk post 1 hp hv he]
      simp [hc]
    · rw [giddc_args g n f fc root dflt _ hne,
        goDeepCallable_err g n itemExcClassified f fc e pre root v kk post 1 hp hv he]
      simp [hc]
  · intro hc
    constructor
    · rw [gidds_args g n root dflt _ hne,
        goDeepSimple_err g n itemExcClassified dflt e pre root v kk post 1 hp hv he]
      simp [hc]
    · rw [giddc_args g n f fc root dflt _ hne,
        goDeepCallable_err g n itemExcClassified f fc e pre root v kk post 1 hp hv he]
      simp [hc]

/-- Witness for C4: root 10, prefix `[1]` (value 11).  With key 103
the step fails with TypeError (wrong type for indexing), a classified
miss: both item variants fall back.  With key 100 it fails with
`other 5`: both propagate. -/
theorem C4_witness :
    fullOk stepW noneW 10 [1] = some 11 ∧ noneW 11 = false ∧
    stepW 11 103 = .error .typeError ∧ stepW 11 100 = .error (.other 5) ∧
    itemExcClassified .typeError = true ∧ itemExcClassified (.other 5) = false ∧
    (get_item_deep_default_simple stepW noneW (10 :: (([1] ++ 103 :: []) ++ [99])) =
        ⟨.ok 99, stepPositions 1 2, 0⟩ ∧
      get_item_deep_default_callable stepW noneW factW 0 (10 :: (([1] ++ 103 :: []) ++ [99])) =
        ⟨factW 0, stepPositions 1 2, 1⟩) ∧
    (get_item_deep_default_simple stepW noneW (10 :: (([1] ++ 100 :: []) ++ [99])) =
        ⟨.error (.other 5), stepPositions 1 2, 0⟩ ∧
      get_item_deep_default_callable stepW noneW factW 0 (10 :: (([1] ++ 100 :: []) ++ [99])) =
        ⟨.error (.other 5), stepPositions 1 2, 0⟩) :=
  ⟨by decide, by decide, rfl, rfl, by decide, by decide,
    (C4_item_classified_miss stepW noneW factW 0 10 99 11 103 [1] [] .typeError
      (by decide) (by decide) rfl).2.1 (by decide),
    (C4_item_classified_miss stepW noneW factW 0 10 99 11 100 [1] [] (.other 5)
      (by decide) (by decide) rfl).2.2 (by decide)⟩

/-- Claim C5: for the attr variants a step failure is a classified
miss only when the exception is AttributeError; such a miss at
position `k = pre.length + 1` yields the fallback, while every other
failure kind — including KeyError, IndexError and TypeError, which the
item variants classify — propagates to the caller unchanged. -/
theorem C5_attr_classified_miss {V : Type} (g : V → V → Except Exc V)
    (n : V → Bool) (f : Nat → Except Exc V) (fc : Nat) (root dflt v kk : V)
    (pre post : List V) (e : Exc)
    (hp : fullOk g n root pre = some v) (hv : n v = false)
    (he : g v kk = .error e) :
    (∀ e' : Exc, attrExcClassified e' = true ↔ e' = .attributeError) ∧
    (e = .attributeError →
      get_attr_deep_default_simple g n (root :: ((pre ++ kk :: post) ++ [dflt])) =
        ⟨.ok dflt, stepPositions 1 (pre.length + 1), 0⟩ ∧
      get_attr_deep_default_callable g n f fc (root :: ((pre ++ kk :: post) ++ [dflt])) =
        ⟨f fc, stepPositions 1 (pre.length + 1), 1⟩) ∧
    (e ≠ .attributeError →
      get_attr_deep_default_simple g n (root :: ((pre ++ kk :: post) ++ [dflt])) =
        ⟨.error e, stepPositions 1 (pre.length + 1), 0⟩ ∧
      get_attr_deep_default_callable g n f fc (root :: ((pre ++ kk :: post) ++ [dflt])) =
        ⟨.error e, stepPositions 1 (pre.length + 1), 0⟩) := by
  have hne : pre ++ kk :: post ≠ [] :=
    List.append_ne_nil_of_right_ne_nil pre (List.cons_ne_nil kk post)
  refine ⟨?_, ?_, ?_⟩
  · intro e'
    cases e' <;> simp [attrExcClassified]
  · intro hc
    have hcl : attrExcClassified e = true := by rw [hc]; rfl
    constructor
    · rw [gadds_args g n root dflt _ hne,
        goDeepSimple_err g n attrExcClassified dflt e pre root v kk post 1 hp hv he]
      simp [hcl]
    · rw [gaddc_args g n f fc root dflt _ hne,
        goDeepCallable_err g n attrExcClassified f fc e pre root v kk post 1 hp hv he]
      simp [hcl]
  · intro hc
    have hcl : attrExcClassified e = false := by
      cases e <;> first | rfl | exact absurd rfl hc
    constructor
    · rw [gadds_args g n root dflt _ hne,
        goDeepSimple_err g n attrExcClassified dflt e pre root v kk post 1 hp hv he]
      simp [hcl]
    · rw [gaddc_args g n f fc root dflt _ hne,
        goDeepCallable_err g n attrExcClassified f fc e pre root v kk post 1 hp hv he]
      simp [hcl]

/-- Witness for C5: root 10, prefix `[1]` (value 11).  With key 102
the step fails with AttributeError: both attr variants fall back.
With key 101 it fails with KeyError — classified by the item variants
but not here: both attr variants propagate it. -/
theorem C5_witness :
    fullOk stepW noneW 10 [1] = some 11 ∧ noneW 11 = false ∧
    stepW 11 102 = .error .attributeError ∧ stepW 11 101 = .error .keyError ∧
    attrExcClassified .keyError = false ∧
    (get_attr_deep_default_simple stepW noneW (10 :: (([1] ++ 102 :: []) ++ [99])) =
        ⟨.ok 99, stepPositions 1 2, 0⟩ ∧
      get_attr_deep_default_callable stepW noneW factW 0 (10 :: (([1] ++ 102 :: []) ++ [99])) =
        ⟨factW 0, stepPositions 1 2, 1⟩) ∧
    (get_attr_deep_default_simple stepW noneW (10 :: (([1] ++ 101 :: []) ++ [99])) =
        ⟨.error .keyError, stepPositions 1 2, 0⟩ ∧
      get_attr_deep_default_callable stepW noneW factW 0 (10 :: (([1] ++ 101 :: []) ++ [99])) =
        ⟨.error .keyError, stepPositions 1 2, 0⟩) :=
  ⟨by decide, by decide, rfl, rfl, by decide,
    (C5_attr_classified_miss stepW noneW factW 0 10 99 11 102 [1] [] .attributeError
      (by decide) (by decide) rfl).2.1 rfl,
    (C5_attr_classified_miss stepW noneW factW 0 10 99 11 101 [1] [] .keyError
      (by decide) (by decide) rfl).2.2 (by decide)⟩

/-- Claim C6: for both factory variants, the factory is invoked
exactly once when the walk short-circuits (null sentinel seen, or
classified miss) and exactly zero times when the chain fully succeeds;
the result is not cached: threading the invocation counter through a
second call on the same short-circuiting chain invokes the factory a
second time and yields the outcome of the second invocation, for
either variant and either short-circuit reason. -/
theorem C6_factory_invocations {V : Type} (g : V → V → Except Exc V)
    (n : V → Bool) (f : Nat → Except Exc V) (fc : Nat) (root dflt v : V) :
    (∀ keys, keys ≠ [] → fullOk g n root keys = some v →
      (get_item_deep_default_callable g n f fc (root :: (keys ++ [dflt]))).factoryCalls = 0 ∧
      (get_attr_deep_default_callable g n f fc (root :: (keys ++ [dflt]))).factoryCalls = 0) ∧
    (∀ pre kk post, fullOk g n root pre = some v → n v = true →
      ((get_item_deep_default_callable g n f fc
          (root :: ((pre ++ kk :: post) ++ [dflt]))).factoryCalls = 1 ∧
        (get_item_deep_default_callable g n f fc
          (root :: ((pre ++ kk :: post) ++ [dflt]))).result = f fc ∧
        (get_attr_deep_default_callable g n f fc
          (root :: ((pre ++ kk :: post) ++ [dflt]))).factoryCalls = 1 ∧
        (get_attr_deep_default_callable g n f fc
          (root :: ((pre ++ kk :: post) ++ [dflt]))).result = f fc) ∧
      (get_item_deep_default_callable g n f
          (fc + (get_item_deep_default_callable g n f fc
            (root :: ((pre ++ kk :: post) ++ [dflt]))).factoryCalls)
          (root :: ((pre ++ kk :: post) ++ [dflt]))).result = f (fc + 1) ∧
      (get_attr_deep_default_callable g n f
          (fc + (get_attr_deep_default_callable g n f fc
            (root :: ((pre ++ kk :: post) ++ [dflt]))).factoryCalls)
          (root :: ((pre ++ kk :: post) ++ [dflt]))).result = f (fc + 1)) ∧
    (∀ pre kk post e, fullOk g n root pre = some v → n v = false →
      g v kk = .error e → itemExcClassified e = true →
      (get_item_deep_default_callable g n f fc
          (root :: ((pre ++ kk :: post) ++ [dflt]))).factoryCalls = 1 ∧
      (get_item_deep_default_callable g n f fc
          (root :: ((pre ++ kk :: post) ++ [dflt]))).result = f fc ∧
      (get_item_deep_default_callable g n f
          (fc + (get_item_deep_default_callable g n f fc
            (root :: ((pre ++ kk :: post) ++ [dflt]))).factoryCalls)
          (root :: ((pre ++ kk :: post) ++ [dflt]))).result = f (fc + 1)) ∧
    (∀ pre kk post e, fullOk g n root pre = some v → n v = false →
      g v kk = .error e → attrExcClassified e = true →
      (get_attr_deep_default_callable g n f fc
          (root :: ((pre ++ kk :: post) ++ [dflt]))).factoryCalls = 1 ∧
      (get_attr_deep_default_callable g n f fc
          (root :: ((pre ++ kk :: post) ++ [dflt]))).result = f fc ∧
      (get_attr_deep_default_callable g n f
          (fc + (get_attr_deep_default_callable g n f fc
            (root :: ((pre ++ kk :: post) ++ [dflt]))).factoryCalls)
          (root :: ((pre ++ kk :: post) ++ [dflt]))).result = f (fc + 1)) := by
  refine ⟨?_, ?_, ?_, ?_⟩
  · intro keys hk h
    rw [giddc_args g n f fc root dflt keys hk,
      goDeepCallable_fullOk g n itemExcClassified f fc keys root v 1 h,
      gaddc_args g n f fc root dflt keys hk,
      goDeepCallable_fullOk g n attrExcClassified f fc keys root v 1 h]
    exact ⟨rfl, rfl⟩
  · intro pre kk post hp hv
    have hne : pre ++ kk :: post ≠ [] :=
      List.append_ne_nil_of_right_ne_nil pre (List.cons_ne_nil kk post)
    have r1 : get_item_deep_default_callable g n f fc
        (root :: ((pre ++ kk :: post) ++ [dflt])) =
        ⟨f fc, stepPositions 1 pre.length, 1⟩ := by
      rw [giddc_args g n f fc root dflt _ hne]
      exact goDeepCallable_sentinel g n itemExcClassified f fc pre root v kk post 1 hp hv
    have r2 : get_item_deep_default_callable g n f (fc + 1)
        (root :: ((pre ++ kk :: post) ++ [dflt])) =
        ⟨f (fc + 1), stepPositions 1 pre.length, 1⟩ := by
      rw [giddc_args g n f (fc + 1) root dflt _ hne]
      exact goDeepCallable_sentinel g n itemExcClassified f (fc + 1) pre root v kk post 1 hp hv
    have ra1 : get_attr_deep_default_callable g n f fc
        (root :: ((pre ++ kk :: post) ++ [dflt])) =
        ⟨f fc, stepPositions 1 pre.length, 1⟩ := by
      rw [gaddc_args g n f fc root dflt _ hne]
      exact goDeepCallable_sentinel g n attrExcClassified f fc pre root v kk post 1 hp hv
    have ra2 : get_attr_deep_default_callable g n f (fc + 1)
        (root :: ((pre ++ kk :: post) ++ [dflt])) =
        ⟨f (fc + 1), stepPositions 1 pre.length, 1⟩ := by
      rw [gaddc_args g n f (fc + 1) root dflt _ hne]
      exact goDeepCallable_sentinel g n attrExcClassified f (fc + 1) pre root v kk post 1 hp hv
    refine ⟨⟨?_, ?_, ?_, ?_⟩, ?_, ?_⟩
    · rw [r1]
    · rw [r1]
    · rw [ra1]
    · rw [ra1]
    · simp only [r1, r2]
    · simp only [ra1, ra2]
  · intro pre kk post e hp hv he hc
    have hne : pre ++ kk :: post ≠ [] :=
      List.append_ne_nil_of_right_ne_nil pre (List.cons_ne_nil kk post)
    have r1 : get_item_deep_default_callable g n f fc
        (root :: ((pre ++ kk :: post) ++ [dflt])) =
        ⟨f fc, stepPositions 1 (pre.length + 1), 1⟩ := by
      rw [giddc_args g n f fc root dflt _ hne,
        goDeepCallable_err g n itemExcClassified f fc e pre root v kk post 1 hp hv he]
      simp [hc]
    have r2 : get_item_deep_default_callable g n f (fc + 1)
        (root :: ((pre ++ kk :: post) ++ [dflt])) =
        ⟨f (fc + 1), stepPositions 1 (pre.length + 1), 1⟩ := by
      rw [giddc_args g n f (fc + 1) root dflt _ hne,
        goDeepCallable_err g n itemExcClassified f (fc + 1) e pre root v kk post 1 hp hv he]
      simp [hc]
    refine ⟨?_, ?_, ?_⟩
    · rw [r1]
    · rw [r1]
    · simp only [r1, r2]
  · intro pre kk post e hp hv he hc
    have hne : pre ++ kk :: post ≠ [] :=
      List.append_ne_nil_of_right_ne_nil pre (List.cons_ne_nil kk post)
    have ra1 : get_attr_deep_default_callable g n f fc
        (root :: ((pre ++ kk :: post) ++ [dflt])) =
        ⟨f fc, stepPositions 1 (pre.length + 1), 1⟩ := by
      rw [gaddc_args g n f fc root dflt _ hne,
        goDeepCallable_err g n attrExcClassified f fc e pre root v kk post 1 hp hv he]
      simp [hc]
    have ra2 : get_attr_deep_default_callable g n f (fc + 1)
        (root :: ((pre ++ kk :: post) ++ [dflt])) =
        ⟨f (fc + 1), stepPositions 1 (pre.length + 1), 1⟩ := by
      rw [gaddc_args g n f (fc + 1) root dflt _ hne,
        goDeepCallable_err g n attrExcClassified f (fc + 1) e pre root v kk post 1 hp hv he]
      simp [hc]
    refine ⟨?_, ?_, ?_⟩
    · rw [ra1]
    · rw [ra1]
    · simp only [ra1, ra2]

/-- Witness for C6: with factory `factW` (invocation `i` returns
`1000 + i`) and initial counter 0: the fully successful chain `[1, 2]`
makes no invocation in either variant; the sentinel chain `[104, 1]`
makes one invocation returning 1000 in either variant and a threaded
second call returns 1001; the item classified-miss chain `[1, 101]`
(KeyError) and the attr classified-miss chain `[1, 102]`
(AttributeError) each make one invocation, with threaded second calls
returning 1001. -/
theorem C6_witness :
    (([1, 2] : List Nat) ≠ [] ∧ fullOk stepW noneW 10 [1, 2] = some 13 ∧
      (get_item_deep_default_callable stepW noneW factW 0 (10 :: ([1, 2] ++ [99]))).factoryCalls = 0 ∧
      (get_attr_deep_default_callable stepW noneW factW 0 (10 :: ([1, 2] ++ [99]))).factoryCalls = 0) ∧
    (fullOk stepW noneW 10 [104] = some 0 ∧ noneW 0 = true ∧
      ((get_item_deep_default_callable stepW noneW factW 0 (10 :: (([104] ++ 1 :: []) ++ [99]))).factoryCalls = 1 ∧
        (get_item_deep_default_callable stepW noneW factW 0 (10 :: (([104] ++ 1 :: []) ++ [99]))).result = factW 0 ∧
        (get_attr_deep_default_callable stepW noneW factW 0 (10 :: (([104] ++ 1 :: []) ++ [99]))).factoryCalls = 1 ∧
        (get_attr_deep_default_callable stepW noneW factW 0 (10 :: (([104] ++ 1 :: []) ++ [99]))).result = factW 0) ∧
      (get_item_deep_default_callable stepW noneW factW
        (0 + (get_item_deep_default_callable stepW noneW factW 0
          (10 :: (([104] ++ 1 :: []) ++ [99]))).factoryCalls)
        (10 :: (([104] ++ 1 :: []) ++ [99]))).result = factW (0 + 1) ∧
      (get_attr_deep_default_callable stepW noneW factW
        (0 + (get_attr_deep_default_callable stepW noneW factW 0
          (10 :: (([104] ++ 1 :: []) ++ [99]))).factoryCalls)
        (10 :: (([104] ++ 1 :: []) ++ [99]))).result = factW (0 + 1)) ∧
    (stepW 13 101 = .error .keyError ∧ itemExcClassified .keyError = true ∧
      (get_item_deep_default_callable stepW noneW factW 0 (10 :: (([1, 2] ++ 101 :: []) ++ [99]))).factoryCalls = 1 ∧
      (get_item_deep_default_callable stepW noneW factW 0 (10 :: (([1, 2] ++ 101 :: []) ++ [99]))).result = factW 0 ∧
      (get_item_deep_default_callable stepW noneW factW
        (0 + (get_item_deep_default_callable stepW noneW factW 0
          (10 :: (([1, 2] ++ 101 :: []) ++ [99]))).factoryCalls)
        (10 :: (([1, 2] ++ 101 :: []) ++ [99]))).result = factW (0 + 1)) ∧
    (stepW 13 102 = .error .attributeError ∧ attrExcClassified .attributeError = true ∧
      (get_attr_deep_default_callable stepW noneW factW 0 (10 :: (([1, 2] ++ 102 :: []) ++ [99]))).factoryCalls = 1 ∧
      (get_attr_deep_default_callable stepW noneW factW 0 (10 :: (([1, 2] ++ 102 :: []) ++ [99]))).result = factW 0 ∧
      (get_attr_deep_default_callable stepW noneW factW
        (0 + (get_attr_deep_default_callable stepW noneW factW 0
          (10 :: (([1, 2] ++ 102 :: []) ++ [99]))).factoryCalls)
        (10 :: (([1, 2] ++ 102 :: []) ++ [99]))).result = factW (0 + 1)) :=
  ⟨⟨by decide, by decide,
      ((C6_factory_invocations stepW noneW factW 0 10 99 13).1 [1, 2]
        (by decide) (by decide)).1,
      ((C6_factory_invocations stepW noneW factW 0 10 99 13).1 [1, 2]
        (by decide) (by decide)).2⟩,
    ⟨by decide, by decide,
      ((C6_factory_invocations stepW noneW factW 0 10 99 0).2.1 [104] 1 []
        (by decide) (by decide)).1,
      ((C6_factory_invocations stepW noneW factW 0 10 99 0).2.1 [104] 1 []
        (by decide) (by decide)).2.1,
      ((C6_factory_invocations stepW noneW factW 0 10 99 0).2.1 [104] 1 []
        (by decide) (by decide)).2.2⟩,
    ⟨rfl, by decide,
      ((C6_factory_invocations stepW noneW factW 0 10 99 13).2.2.1 [1, 2] 101 []
        .keyError (by decide) (by decide) rfl (by decide)).1,
      ((C6_factory_invocations stepW noneW factW 0 10 99 13).2.2.1 [1, 2] 101 []
        .keyError (by decide) (by decide) rfl (by decide)).2.1,
      ((C6_factory_invocations stepW noneW factW 0 10 99 13).2.2.1 [1, 2] 101 []
        .keyError (by decide) (by decide) rfl (by decide)).2.2⟩,
    ⟨rfl, by decide,
      ((C6_factory_invocations stepW noneW factW 0 10 99 13).2.2.2 [1, 2] 102 []
        .attributeError (by decide) (by decide) rfl (by decide)).1,
      ((C6_factory_invocations stepW noneW factW 0 10 99 13).2.2.2 [1, 2] 102 []
        .attributeError (by decide) (by decide) rfl (by decide)).2.1,
      ((C6_factory_invocations stepW noneW factW 0 10 99 13).2.2.2 [1, 2] 102 []
        .attributeError (by decide) (by decide) rfl (by decide)).2.2⟩⟩

/-- Claim C7: a failure raised while invoking the fallback factory
propagates to the caller verbatim: when a short-circuit occurs
(sentinel or classified miss) and the factory's single invocation
fails with `e`, the call returns exactly `.error e` — not suppressed,
not retried (exactly one invocation), and not replaced by any
secondary default. -/
theorem C7_factory_error_propagates {V : Type} (g : V → V → Except Exc V)
    (n : V → Bool) (f : Nat → Except Exc V) (fc : Nat) (root dflt v : V)
    (e : Exc) (hf : f fc = .error e) :
    (∀ pre kk post, fullOk g n root pre = some v → n v = true →
      get_item_deep_default_callable g n f fc (root :: ((pre ++ kk :: post) ++ [dflt])) =
        ⟨.error e, stepPositions 1 pre.length, 1⟩ ∧
      get_attr_deep_default_callable g n f fc (root :: ((pre ++ kk :: post) ++ [dflt])) =
        ⟨.error e, stepPositions 1 pre.length, 1⟩) ∧
    (∀ pre kk post e', fullOk g n root pre = some v → n v = false →
      g v kk = .error e' → itemExcClassified e' = true →
      get_item_deep_default_callable g n f fc (root :: ((pre ++ kk :: post) ++ [dflt])) =
        ⟨.error e, stepPositions 1 (pre.length + 1), 1⟩) := by
  refine ⟨?_, ?_⟩
  · intro pre kk post hp hv
    have hne : pre ++ kk :: post ≠ [] :=
      List.append_ne_nil_of_right_ne_nil pre (List.cons_ne_nil kk post)
    constructor
    · rw [giddc_args g n f fc root dflt _ hne,
        goDeepCallable_sentinel g n itemExcClassified f fc pre root v kk post 1 hp hv, hf]
    · rw [gaddc_args g n f fc root dflt _ hne,
        goDeepCallable_sentinel g n attrExcClassified f fc pre root v kk post 1 hp hv, hf]
  · intro pre kk post e' hp hv he hc
    have hne : pre ++ kk :: post ≠ [] :=
      List.append_ne_nil_of_right_ne_nil pre (List.cons_ne_nil kk post)
    rw [giddc_args g n f fc root dflt _ hne,
      goDeepCallable_err g n itemExcClassified f fc e' pre root v kk post 1 hp hv he]
    simp [hc, hf]

/-- Witness for C7: the failing factory `factFailW` (invocation 0
fails with `other 7`): the sentinel chain `[104, 1]` and the
classified-miss chain `[1, 101]` both return that factory failure. -/
theorem C7_witness :
    factFailW 0 = .error (.other 7) ∧
    (fullOk stepW noneW 10 [104] = some 0 ∧ noneW 0 = true ∧
      get_item_deep_default_callable stepW noneW factFailW 0 (10 :: (([104] ++ 1 :: []) ++ [99])) =
        ⟨.error (.other 7), stepPositions 1 1, 1⟩ ∧
      get_attr_deep_default_callable stepW noneW factFailW 0 (10 :: (([104] ++ 1 :: []) ++ [99])) =
        ⟨.error (.other 7), stepPositions 1 1, 1⟩) ∧
    (fullOk stepW noneW 10 [1] = some 11 ∧ noneW 11 = false ∧
      stepW 11 101 = .error .keyError ∧
      get_item_deep_default_callable stepW noneW factFailW 0 (10 :: (([1] ++ 101 :: []) ++ [99])) =
        ⟨.error (.other 7), stepPositions 1 2, 1⟩) :=
  ⟨rfl,
    ⟨by decide, by decide,
      ((C7_factory_error_propagates stepW noneW factFailW 0 10 99 0 (.other 7) rfl).1
        [104] 1 [] (by decide) (by decide)).1,
      ((C7_factory_error_propagates stepW noneW factFailW 0 10 99 0 (.other 7) rfl).1
        [104] 1 [] (by decide) (by decide)).2⟩,
    ⟨by decide, by decide, rfl,
      (C7_factory_error_propagates stepW noneW factFailW 0 10 99 11 (.other 7) rfl).2
        [1] 101 [] .keyError (by decide) (by decide) rfl (by decide)⟩⟩

/-- Claim C9: for the static-value variants, whenever the walk
short-circuits (sentinel or classified miss) the returned value is the
configured default argument itself — the very value passed in last
position, with no copy or transformation (the model's value type is
abstract, so the result can only be the argument itself); the
functions are deterministic, so repeated calls return that same value. -/
theorem C9_static_default_identity {V : Type} (gItem gAttr : V → V → Except Exc V)
    (n : V → Bool) (root dflt v : V) :
    (∀ pre kk post, fullOk gItem n root pre = some v → n v = true →
      (get_item_deep_default_simple gItem n
        (root :: ((pre ++ kk :: post) ++ [dflt]))).result = .ok dflt) ∧
    (∀ pre kk post, fullOk gAttr n root pre = some v → n v = true →
      (get_attr_deep_default_simple gAttr n
        (root :: ((pre ++ kk :: post) ++ [dflt]))).result = .ok dflt) ∧
    (∀ pre kk post e, fullOk gItem n root pre = some v → n v = false →
      gItem v kk = .error e → itemExcClassified e = true →
      (get_item_deep_default_simple gItem n
        (root :: ((pre ++ kk :: post) ++ [dflt]))).result = .ok dflt) ∧
    (∀ pre kk post, fullOk gAttr n root pre = some v → n v = false →
      gAttr v kk = .error .attributeError →
      (get_attr_deep_default_simple gAttr n
        (root :: ((pre ++ kk :: post) ++ [dflt]))).result = .ok dflt) := by
  refine ⟨?_, ?_, ?_, ?_⟩
  · intro pre kk post hp hv
    rw [gidds_args gItem n root dflt _
        (List.append_ne_nil_of_right_ne_nil pre (List.cons_ne_nil kk post)),
      goDeepSimple_sentinel gItem n itemExcClassified dflt pre root v kk post 1 hp hv]
  · intro pre kk post hp hv
    rw [gadds_args gAttr n root dflt _
        (List.append_ne_nil_of_right_ne_nil pre (List.cons_ne_nil kk post)),
      goDeepSimple_sentinel gAttr n attrExcClassified dflt pre root v kk post 1 hp hv]
  · intro pre kk post e hp hv he hc
    rw [gidds_args gItem n root dflt _
        (List.append_ne_nil_of_right_ne_nil pre (List.cons_ne_nil kk post)),
      goDeepSimple_err gItem n itemExcClassified dflt e pre root v kk post 1 hp hv he]
    simp [hc]
  · intro pre kk post hp hv he
    rw [gadds_args gAttr n root dflt _
        (List.append_ne_nil_of_right_ne_nil pre (List.cons_ne_nil kk post)),
      goDeepSimple_err gAttr n attrExcClassified dflt .attributeError pre root v kk post 1 hp hv he]
    simp [attrExcClassified]

/-- Witness for C9: default 99 at the end of the argument list is
returned as-is from a sentinel short-circuit (chain `[104, 1]`) and
from classified misses (item chain `[1, 101]`, attr chain `[1, 102]`). -/
theorem C9_witness :
    (fullOk stepW noneW 10 [104] = some 0 ∧ noneW 0 = true ∧
      (get_item_deep_default_simple stepW noneW
        (10 :: (([104] ++ 1 :: []) ++ [99]))).result = .ok 99 ∧
      (get_attr_deep_default_simple stepW noneW
        (10 :: (([104] ++ 1 :: []) ++ [99]))).result = .ok 99) ∧
    (fullOk stepW noneW 10 [1] = some 11 ∧ noneW 11 = false ∧
      stepW 11 101 = .error .keyError ∧ stepW 11 102 = .error .attributeError ∧
      (get_item_deep_default_simple stepW noneW
        (10 :: (([1] ++ 101 :: []) ++ [99]))).result = .ok 99 ∧
      (get_attr_deep_default_simple stepW noneW
        (10 :: (([1] ++ 102 :: []) ++ [99]))).result = .ok 99) :=
  ⟨⟨by decide, by decide,
      (C9_static_default_identity stepW stepW noneW 10 99 0).1 [104] 1 []
        (by decide) (by decide),
      (C9_static_default_identity stepW stepW noneW 10 99 0).2.1 [104] 1 []
        (by decide) (by decide)⟩,
    ⟨by decide, by decide, rfl, rfl,
      (C9_static_default_identity stepW stepW noneW 10 99 11).2.2.1 [1] 101 []
        .keyError (by decide) (by decide) rfl (by decide),
      (C9_static_default_identity stepW stepW noneW 10 99 11).2.2.2 [1] 102 []
        (by decide) (by decide) rfl⟩⟩
